import Mathlib

/-!
Shallow embedding of the iOS geolocation shim boundary declared in
`packages/mobile-geolocation/ios-shim/include/GeolocationShim.h`.

The repository contains only the C header declaring the four entry points
together with their documented contracts; the CoreLocation-calling
implementation file is not part of the source tree.  The behavioural
definitions below are therefore modelled from the spec, with the integer
status encoding (header lines 28-33), the `1`/`0` service flag (line 23)
and the `NULL` absence sentinel (line 13) taken from the documentation
comments in the header itself.

Modelling choices:
* geographic coordinates (C `double`) are modelled as `Rat`: the bridge
  performs no arithmetic on them, it only passes the cached pair of the
  platform through unchanged;
* C pointers are modelled as natural numbers, `0` playing the role of
  `NULL`; a `Heap` records which buffers are live and their contents,
  so that allocation freshness and release-exactly-once are expressible;
* each entry point is a state-passing function returning its result
  together with the successor bridge state, making purity and
  side-effect claims statable.
-/

/-- The five-variant platform authorization model
(`GeolocationShim.h`, lines 28-33). -/
inductive AuthorizationStatus where
  | notDetermined
  | restricted
  | denied
  | authorizedAlways
  | authorizedWhenInUse
  deriving DecidableEq, Repr

/-- The fixed small-integer encoding of the authorization status, as
documented in the header (lines 28-33): 0 = not determined,
1 = restricted, 2 = denied, 3 = authorized always,
4 = authorized when in use. -/
def AuthorizationStatus.code : AuthorizationStatus → Int
  | .notDetermined => 0
  | .restricted => 1
  | .denied => 2
  | .authorizedAlways => 3
  | .authorizedWhenInUse => 4

/-- A geographic coordinate; C `double` modelled as `Rat`, since the
bridge only passes coordinates through and never computes with them. -/
abbrev Coord := Rat

/-- Platform-owned state the bridge consults: per-app authorization,
system-wide service availability, the cached last fix (if any), and
whether a permission prompt is pending. -/
structure PlatformState where
  auth : AuthorizationStatus
  servicesEnabled : Bool
  cachedFix : Option (Coord × Coord)
  promptPending : Bool
  deriving DecidableEq, Repr

/-- The absence sentinel of `ios_geoloc_last_known`
(`GeolocationShim.h`, line 13); C pointers are modelled as naturals. -/
def NULL : Nat := 0

/-- The heap of caller-owned buffers handed across the boundary:
an allocation frontier and the contents of each live buffer. -/
structure Heap where
  nextPtr : Nat
  contents : Nat → Option (Coord × Coord)

/-- The initial, empty heap: no buffer live, first fresh pointer is 1. -/
def Heap.empty : Heap :=
  ⟨1, fun _ => none⟩

/-- A heap is well formed when the allocation frontier is positive
(so fresh pointers are never `NULL`) and every pointer at or beyond
the frontier is not live. -/
def Heap.WF (h : Heap) : Prop :=
  1 ≤ h.nextPtr ∧ ∀ p, h.nextPtr ≤ p → h.contents p = none

/-- The full state visible to the embedding: the platform state plus the
heap of buffers the bridge has handed to the caller. -/
structure BridgeState where
  platform : PlatformState
  heap : Heap

/-- Modelled from the spec: the CoreLocation-calling implementation of
`ios_geoloc_authorization_status` is not in the source tree; the header
(lines 26-34) fixes the integer encoding.  Returns the current
authorization status as the fixed small-integer code; a pure read. -/
def ios_geoloc_authorization_status (s : BridgeState) : Int × BridgeState :=
  (s.platform.auth.code, s)

/-- Whether the current authorization state permits a location query:
the two authorized variants do, the other three do not. -/
def PlatformState.authorized (p : PlatformState) : Bool :=
  match p.auth with
  | .authorizedAlways => true
  | .authorizedWhenInUse => true
  | _ => false

/-- Modelled from the spec: the implementation of
`ios_geoloc_services_enabled` is not in the source tree; the header
(lines 21-24) fixes the return convention.  Returns 1 when location
services are enabled system-wide and 0 when disabled; a pure read. -/
def ios_geoloc_services_enabled (s : BridgeState) : Int × BridgeState :=
  (if s.platform.servicesEnabled then 1 else 0, s)

/-- Modelled from the spec: the implementation of
`ios_geoloc_request_authorization` is not in the source tree (header
lines 18-19).  Requests the permission prompt: fire-and-forget, no
return value; it only schedules a prompt (a no-op if the status is
already determined) and never mutates the authorization state itself —
the asynchronous decision of the user is applied later by the platform. -/
def ios_geoloc_request_authorization (s : BridgeState) : Unit × BridgeState :=
  ((), if s.platform.auth = .notDetermined then
        { s with platform := { s.platform with promptPending := true } }
      else s)

/-- The platform resolving a pending prompt (user action or system
policy): external to the bridge, it alone mutates the authorization
state. -/
def platformResolve (decision : AuthorizationStatus) (s : BridgeState) : BridgeState :=
  { s with platform := { s.platform with auth := decision, promptPending := false } }

/-- Modelled from the spec: the implementation of
`ios_geoloc_last_known` is not in the source tree; the header
(lines 10-16) fixes the convention.  When the query is permitted
(services enabled and app authorized) and the platform holds a cached
fix, a fresh two-coordinate buffer is allocated and its pointer
returned, ownership passing to the caller; otherwise the `NULL`
sentinel is returned and nothing is allocated. -/
def ios_geoloc_last_known (s : BridgeState) : Nat × BridgeState :=
  if s.platform.servicesEnabled && s.platform.authorized then
    match s.platform.cachedFix with
    | some fix =>
        (s.heap.nextPtr,
         { s with heap :=
            { nextPtr := s.heap.nextPtr + 1,
              contents := fun q => if q = s.heap.nextPtr then some fix
                                   else s.heap.contents q } })
    | none => (NULL, s)
  else (NULL, s)

/-- The caller releasing a buffer (`free` in C): succeeds exactly when
the buffer is live, and removes it from the heap. -/
def geoloc_free (p : Nat) (h : Heap) : Option Heap :=
  match h.contents p with
  | some _ => some { h with contents := fun q => if q = p then none else h.contents q }
  | none => none

/-- The cached fix of the worked scenario: (37.7749, -122.4194). -/
def sampleFix : Coord × Coord :=
  ((377749 : Rat) / 10000, -((1224194 : Rat) / 10000))

/-- Scenario state: authorization when-in-use, services enabled,
cached fix (37.7749, -122.4194), empty heap. -/
def stateFixWhenInUse : BridgeState :=
  { platform := { auth := .authorizedWhenInUse, servicesEnabled := true,
                  cachedFix := some sampleFix, promptPending := false },
    heap := Heap.empty }

/-- Scenario state: authorization denied, services enabled, a cached
fix present, empty heap. -/
def stateDeniedEnabled : BridgeState :=
  { platform := { auth := .denied, servicesEnabled := true,
                  cachedFix := some sampleFix, promptPending := false },
    heap := Heap.empty }

/-- Scenario state: authorization always, services disabled, a cached
fix present, empty heap. -/
def stateAlwaysDisabled : BridgeState :=
  { platform := { auth := .authorizedAlways, servicesEnabled := false,
                  cachedFix := some sampleFix, promptPending := false },
    heap := Heap.empty }

/-- C1: for every bridge state, `ios_geoloc_authorization_status` returns
a code in exactly the set \x7b0,1,2,3,4\x7d, under the fixed mapping
0 = NotDetermined, 1 = Restricted, 2 = Denied, 3 = AuthorizedAlways,
4 = AuthorizedWhenInUse; no other value is ever produced. -/
theorem C1_authorization_status_codes (s : BridgeState) :
    ((ios_geoloc_authorization_status s).1 = 0 ∨
     (ios_geoloc_authorization_status s).1 = 1 ∨
     (ios_geoloc_authorization_status s).1 = 2 ∨
     (ios_geoloc_authorization_status s).1 = 3 ∨
     (ios_geoloc_authorization_status s).1 = 4) ∧
    ((ios_geoloc_authorization_status s).1 = 0 ↔
        s.platform.auth = .notDetermined) ∧
    ((ios_geoloc_authorization_status s).1 = 1 ↔
        s.platform.auth = .restricted) ∧
    ((ios_geoloc_authorization_status s).1 = 2 ↔
        s.platform.auth = .denied) ∧
    ((ios_geoloc_authorization_status s).1 = 3 ↔
        s.platform.auth = .authorizedAlways) ∧
    ((ios_geoloc_authorization_status s).1 = 4 ↔
        s.platform.auth = .authorizedWhenInUse) := by
  cases h : s.platform.auth <;>
    simp [ios_geoloc_authorization_status, AuthorizationStatus.code, h]

/-- C1 witness: the worked when-in-use state instantiates C1. -/
theorem C1_authorization_status_codes_witness :
    ((ios_geoloc_authorization_status stateFixWhenInUse).1 = 4 ↔
        stateFixWhenInUse.platform.auth = .authorizedWhenInUse) :=
  (C1_authorization_status_codes stateFixWhenInUse).2.2.2.2.2

/-- C2: whenever the authorization status is anything other than
AuthorizedAlways or AuthorizedWhenInUse, `ios_geoloc_last_known`
returns the absence sentinel and leaves the state unchanged,
regardless of global service availability. -/
theorem C2_unauthorized_absence (s : BridgeState)
    (h : s.platform.auth ≠ .authorizedAlways ∧
         s.platform.auth ≠ .authorizedWhenInUse) :
    (ios_geoloc_last_known s).1 = NULL ∧ (ios_geoloc_last_known s).2 = s := by
  have hauth : s.platform.authorized = false := by
    cases hc : s.platform.auth <;>
      simp_all [PlatformState.authorized]
  simp [ios_geoloc_last_known, hauth]

/-- C2 witness: in the denied-with-services-enabled state (which even
holds a cached fix), the query returns the absence sentinel. -/
theorem C2_unauthorized_absence_witness :
    (stateDeniedEnabled.platform.auth ≠ .authorizedAlways ∧
     stateDeniedEnabled.platform.auth ≠ .authorizedWhenInUse) ∧
    (ios_geoloc_last_known stateDeniedEnabled).1 = NULL :=
  ⟨by decide, (C2_unauthorized_absence stateDeniedEnabled (by decide)).1⟩

/-- C3: whenever `ios_geoloc_services_enabled` returns 0 (services
disabled system-wide), `ios_geoloc_last_known` returns the absence
sentinel and leaves the state unchanged, regardless of the
authorization state. -/
theorem C3_services_disabled_absence (s : BridgeState)
    (h : (ios_geoloc_services_enabled s).1 = 0) :
    (ios_geoloc_last_known s).1 = NULL ∧ (ios_geoloc_last_known s).2 = s := by
  have hs : s.platform.servicesEnabled = false := by
    cases hc : s.platform.servicesEnabled with
    | false => rfl
    | true => simp [ios_geoloc_services_enabled, hc] at h
  simp [ios_geoloc_last_known, hs]

/-- C3 witness: services disabled with authorization AuthorizedAlways
(and a cached fix present) still yields the absence sentinel. -/
theorem C3_services_disabled_absence_witness :
    (ios_geoloc_services_enabled stateAlwaysDisabled).1 = 0 ∧
    (ios_geoloc_last_known stateAlwaysDisabled).1 = NULL :=
  ⟨by decide, (C3_services_disabled_absence stateAlwaysDisabled (by decide)).1⟩

/-- C4: every result of `ios_geoloc_last_known` is either the `NULL`
sentinel (with the state unchanged) or a pointer to a buffer holding
the complete cached coordinate pair; the function is total, so no
thrown-fault outcome exists, and whenever the query is permitted and a
cached fix is held, the full pair is returned. -/
theorem C4_complete_or_absent (s : BridgeState) :
    (((ios_geoloc_last_known s).1 = NULL ∧ (ios_geoloc_last_known s).2 = s) ∨
     (∃ fix, s.platform.cachedFix = some fix ∧
        (ios_geoloc_last_known s).2.heap.contents (ios_geoloc_last_known s).1
          = some fix)) ∧
    (s.platform.servicesEnabled = true → s.platform.authorized = true →
      ∀ fix, s.platform.cachedFix = some fix →
        (ios_geoloc_last_known s).2.heap.contents (ios_geoloc_last_known s).1
          = some fix) := by
  constructor
  · by_cases hs : s.platform.servicesEnabled && s.platform.authorized
    · cases hfix : s.platform.cachedFix with
      | none => exact Or.inl (by simp [ios_geoloc_last_known, hs, hfix])
      | some fix =>
          exact Or.inr ⟨fix, rfl, by simp [ios_geoloc_last_known, hs, hfix]⟩
    · exact Or.inl (by simp [ios_geoloc_last_known, hs])
  · intro hse hau fix hfix
    simp [ios_geoloc_last_known, hse, hau, hfix]

/-- C4 witness: in the worked when-in-use state the query is permitted,
a fix is cached, and the full pair is returned. -/
theorem C4_complete_or_absent_witness :
    (ios_geoloc_last_known stateFixWhenInUse).2.heap.contents
        (ios_geoloc_last_known stateFixWhenInUse).1 = some sampleFix :=
  (C4_complete_or_absent stateFixWhenInUse).2 rfl rfl sampleFix rfl

/-- C5: `ios_geoloc_authorization_status` is idempotent: with no
intervening state change, a second call returns the same integer code,
and the call itself leaves the bridge state unchanged. -/
theorem C5_status_idempotent (s : BridgeState) :
    (ios_geoloc_authorization_status s).2 = s ∧
    (ios_geoloc_authorization_status
        ((ios_geoloc_authorization_status s).2)).1
      = (ios_geoloc_authorization_status s).1 := by
  exact ⟨rfl, rfl⟩

/-- C7: in the state where authorization is AuthorizedWhenInUse,
services are enabled, and the cached fix is (37.7749, -122.4194),
`ios_geoloc_last_known` returns a non-NULL buffer holding exactly that
pair, and `ios_geoloc_authorization_status` returns 4. -/
theorem C7_when_in_use_scenario :
    (ios_geoloc_last_known stateFixWhenInUse).1 ≠ NULL ∧
    (ios_geoloc_last_known stateFixWhenInUse).2.heap.contents
        (ios_geoloc_last_known stateFixWhenInUse).1
      = some ((377749 : Rat) / 10000, -((1224194 : Rat) / 10000)) ∧
    (ios_geoloc_authorization_status stateFixWhenInUse).1 = 4 := by
  refine ⟨by decide, rfl, rfl⟩

/-- C8: `ios_geoloc_services_enabled` returns exactly 1 when services
are enabled and exactly 0 when disabled, never any other value, and is
a pure read leaving the state unchanged. -/
theorem C8_services_enabled_pure (s : BridgeState) :
    ((ios_geoloc_services_enabled s).1
        = if s.platform.servicesEnabled then 1 else 0) ∧
    ((ios_geoloc_services_enabled s).1 = 1 ∨
     (ios_geoloc_services_enabled s).1 = 0) ∧
    (ios_geoloc_services_enabled s).2 = s := by
  refine ⟨rfl, ?_, rfl⟩
  by_cases h : s.platform.servicesEnabled <;>
    simp [ios_geoloc_services_enabled, h]

/-- C9: `ios_geoloc_request_authorization` takes no input beyond the
ambient state and produces no direct return value (the unit value is
its only possible result); it never changes the synchronously observed
authorization code, and the transition triggered by the platform
resolving the prompt is observable only through a later call to
`ios_geoloc_authorization_status`. -/
theorem C9_request_fire_and_forget (s : BridgeState) :
    (ios_geoloc_request_authorization s).1 = () ∧
    (ios_geoloc_authorization_status
        ((ios_geoloc_request_authorization s).2)).1
      = (ios_geoloc_authorization_status s).1 ∧
    ∀ d, (ios_geoloc_authorization_status
            (platformResolve d (ios_geoloc_request_authorization s).2)).1
          = d.code := by
  refine ⟨rfl, ?_, ?_⟩
  · by_cases h : s.platform.auth = .notDetermined <;>
      simp [ios_geoloc_request_authorization, ios_geoloc_authorization_status, h]
  · intro d
    by_cases h : s.platform.auth = .notDetermined <;>
      simp [ios_geoloc_request_authorization, ios_geoloc_authorization_status,
        platformResolve, h]

/-- C10: the absence sentinel of `ios_geoloc_last_known` is concretely
`NULL`: whenever no location is available (services disabled, app not
authorized, or no cached fix) the function returns `NULL`, and every
non-`NULL` return points to a buffer holding the complete cached
coordinate pair. -/
theorem C10_null_sentinel (s : BridgeState) :
    ((s.platform.servicesEnabled = false ∨ s.platform.authorized = false ∨
        s.platform.cachedFix = none) →
      (ios_geoloc_last_known s).1 = NULL) ∧
    ((ios_geoloc_last_known s).1 ≠ NULL →
      ∃ fix, s.platform.cachedFix = some fix ∧
        (ios_geoloc_last_known s).2.heap.contents (ios_geoloc_last_known s).1
          = some fix) := by
  constructor
  · intro h
    rcases h with h | h | h
    · simp [ios_geoloc_last_known, h]
    · simp [ios_geoloc_last_known, h]
    · by_cases hs : s.platform.servicesEnabled && s.platform.authorized <;>
        simp [ios_geoloc_last_known, hs, h]
  · intro hne
    by_cases hs : s.platform.servicesEnabled && s.platform.authorized
    · cases hfix : s.platform.cachedFix with
      | none => exact absurd (by simp [ios_geoloc_last_known, hs, hfix]) hne
      | some fix =>
          exact ⟨fix, rfl, by simp [ios_geoloc_last_known, hs, hfix]⟩
    · exact absurd (by simp [ios_geoloc_last_known, hs]) hne

/-- C10 witness: in the worked when-in-use state the returned pointer
is not `NULL` and holds the full cached pair. -/
theorem C10_null_sentinel_witness :
    ∃ fix, stateFixWhenInUse.platform.cachedFix = some fix ∧
      (ios_geoloc_last_known stateFixWhenInUse).2.heap.contents
          (ios_geoloc_last_known stateFixWhenInUse).1 = some fix :=
  (C10_null_sentinel stateFixWhenInUse).2 (by decide)

/-- C6: ownership round-trip.  From a well-formed heap, every
non-`NULL` result of `ios_geoloc_last_known` is a freshly allocated
buffer (not live before the call) holding the full coordinate pair,
the platform state and every other buffer are untouched, the buffer
can be released exactly once (a second release fails), an immediately
following call never returns the same buffer, and well-formedness is
preserved; when `NULL` is returned the state is unchanged, so there is
nothing to release. -/
theorem C6_ownership_round_trip (s : BridgeState) (hwf : s.heap.WF) :
    ((ios_geoloc_last_known s).1 = NULL → (ios_geoloc_last_known s).2 = s) ∧
    ((ios_geoloc_last_known s).1 ≠ NULL →
      (s.heap.contents (ios_geoloc_last_known s).1 = none ∧
       (∃ fix, (ios_geoloc_last_known s).2.heap.contents
          (ios_geoloc_last_known s).1 = some fix) ∧
       (ios_geoloc_last_known s).2.platform = s.platform ∧
       (∀ q : Nat, q ≠ (ios_geoloc_last_known s).1 →
          (ios_geoloc_last_known s).2.heap.contents q = s.heap.contents q) ∧
       (∃ h1, geoloc_free (ios_geoloc_last_known s).1
                (ios_geoloc_last_known s).2.heap = some h1 ∧
              geoloc_free (ios_geoloc_last_known s).1 h1 = none) ∧
       (ios_geoloc_last_known ((ios_geoloc_last_known s).2)).1
          ≠ (ios_geoloc_last_known s).1 ∧
       (ios_geoloc_last_known s).2.heap.WF)) := by
  by_cases hs : s.platform.servicesEnabled && s.platform.authorized
  · cases hfix : s.platform.cachedFix with
    | none =>
        refine ⟨fun _ => by simp [ios_geoloc_last_known, hs, hfix], fun hne => ?_⟩
        exact absurd (by simp [ios_geoloc_last_known, hs, hfix]) hne
    | some fix =>
        have hres : ios_geoloc_last_known s
            = (s.heap.nextPtr,
               { s with heap :=
                  { nextPtr := s.heap.nextPtr + 1,
                    contents := fun q => if q = s.heap.nextPtr then some fix
                                         else s.heap.contents q } }) := by
          simp [ios_geoloc_last_known, hs, hfix]
        have hpos : 1 ≤ s.heap.nextPtr := hwf.1
        rw [hres]
        constructor
        · intro h0
          simp [NULL] at h0
          exact absurd h0 (by omega)
        · intro _
          refine ⟨hwf.2 _ le_rfl, ⟨fix, by simp⟩, rfl, ?_, ?_, ?_, ?_⟩
          · intro q hq
            have hq2 : q ≠ s.heap.nextPtr := hq
            simp [hq2]
          · refine ⟨{ nextPtr := s.heap.nextPtr + 1,
                      contents := fun q => if q = s.heap.nextPtr then none
                        else if q = s.heap.nextPtr then some fix
                        else s.heap.contents q }, ?_, ?_⟩
            · simp [geoloc_free]
            · simp [geoloc_free]
          · simp [ios_geoloc_last_known, hs, hfix]
          · refine ⟨?_, ?_⟩
            · show 1 ≤ s.heap.nextPtr + 1
              omega
            · intro q hq
              have hq3 : s.heap.nextPtr + 1 ≤ q := hq
              have hne2 : q ≠ s.heap.nextPtr := by omega
              show (if q = s.heap.nextPtr then some fix
                    else s.heap.contents q) = none
              rw [if_neg hne2]
              exact hwf.2 q (by omega)
  · refine ⟨fun _ => by simp [ios_geoloc_last_known, hs], fun hne => ?_⟩
    exact absurd (by simp [ios_geoloc_last_known, hs]) hne

/-- C6 witness: in the worked when-in-use state (whose empty heap is
well formed) the returned buffer was not live before the call. -/
theorem C6_ownership_round_trip_witness :
    stateFixWhenInUse.heap.contents
      (ios_geoloc_last_known stateFixWhenInUse).1 = none :=
  ((C6_ownership_round_trip stateFixWhenInUse
      ⟨le_refl 1, fun _ _ => rfl⟩).2 (by decide)).1
